import Mathlib

/-!
Shallow embedding of `src/server.js`, a shipment-tracking REST backend over a
JSON document store `{shipments, events, nextShipmentId, nextEventId}`.

Timestamps are modelled as natural numbers (abstract instants) and `now()`
becomes an explicit time parameter.  Each Express handler becomes a pure
function from the request data and the loaded store to an HTTP outcome and the
saved store; the handlers answer before writing on their error paths, so those
paths return the store unchanged.  The source's comparison sorts
(`Array.prototype.sort` with a numeric comparator) are modelled with
`List.insertionSort`, which realises the same sorted-permutation contract.
-/

namespace ShipmentApp

/-- Truthiness of an optional JS string field: `undefined` and `""` are falsy. -/
def truthy : Option String → Bool
  | none => false
  | some s => s != ""

/-- JS `x || d` for an optional string `x` and string default `d`. -/
def orDefault (o : Option String) (d : String) : String :=
  match o with
  | some s => if s = "" then d else s
  | none => d

/-- Whether `pre` is a leading run of `l` (character-list analogue of JS
`startsWith`, used to build `includes`). -/
def leadingRun : List Char → List Char → Bool
  | [], _ => true
  | _ :: _, [] => false
  | a :: as, b :: bs => a == b && leadingRun as bs

/-- Character-list analogue of JS `hay.includes(needle)`. -/
def containsRun (needle : List Char) : List Char → Bool
  | [] => needle.isEmpty
  | c :: rest => leadingRun needle (c :: rest) || containsRun needle rest

/-- JS `hay.includes(needle)` on strings. -/
def strIncludes (hay needle : String) : Bool :=
  containsRun needle.toList hay.toList

/-- A shipment record as stored in the database (`db.shipments` entries). -/
structure Shipment where
  id : Nat
  tracking_number : String
  sender_name : String
  receiver_name : String
  origin : String
  destination : String
  /-- Raw optional weight.  The source stores `weight ? parseFloat(weight) : null`;
  no claim touches the numeric value, so the raw text of a truthy field is
  carried through and a falsy field becomes `none`. -/
  weight : Option String
  category : String
  status : String
  created_at : Nat
  updated_at : Nat
deriving DecidableEq

/-- A tracking event belonging to one shipment (`db.events` entries). -/
structure Event where
  id : Nat
  shipment_id : Nat
  status : String
  location : String
  notes : String
  event_time : Nat
deriving DecidableEq

/-- The JSON document store held in the Gist. -/
structure DB where
  shipments : List Shipment
  events : List Event
  nextShipmentId : Nat
  nextEventId : Nat
deriving DecidableEq

/-- Search predicate of `GET /api/shipments`: `s` is the already-lowercased
query and each of the five fields is lowercased and tested for containment,
with OR semantics (lines 65-71 of the source). -/
def matchesSearch (s : String) (sh : Shipment) : Bool :=
  strIncludes sh.tracking_number.toLower s ||
  strIncludes sh.sender_name.toLower s ||
  strIncludes sh.receiver_name.toLower s ||
  strIncludes sh.origin.toLower s ||
  strIncludes sh.destination.toLower s

/-- Descending order on `created_at`, the comparator of the list endpoint. -/
def createdDesc : Shipment → Shipment → Prop := fun a b => b.created_at ≤ a.created_at

instance : DecidableRel createdDesc := fun a b => Nat.decLe b.created_at a.created_at

instance : IsTotal Shipment createdDesc := ⟨fun a b => Nat.le_total b.created_at a.created_at⟩

instance : IsTrans Shipment createdDesc := ⟨fun _ _ _ h1 h2 => Nat.le_trans h2 h1⟩

/-- Handler of `GET /api/shipments`: optional search filter, optional status
filter (skipped for the sentinel `"All"`), then sort descending by
`created_at` (lines 57-76 of the source).  Absent query parameters are `none`;
an empty-string parameter is falsy in the source and so applies no filter. -/
def listShipments (search status : Option String) (db : DB) : List Shipment :=
  let shipments := db.shipments
  let shipments :=
    if truthy search then
      shipments.filter (matchesSearch ((search.getD "").toLower))
    else shipments
  let shipments :=
    if truthy status && status != some "All" then
      shipments.filter (fun sh => sh.status == status.getD "")
    else shipments
  shipments.insertionSort createdDesc

/-- Outcome of `GET /api/shipments/:id`. -/
inductive GetResult
  | notFound
  | found (shipment : Shipment) (events : List Event)
deriving DecidableEq

/-- Descending order on `event_time`, the comparator of the detail endpoint. -/
def eventTimeDesc : Event → Event → Prop := fun a b => b.event_time ≤ a.event_time

instance : DecidableRel eventTimeDesc := fun a b => Nat.decLe b.event_time a.event_time

instance : IsTotal Event eventTimeDesc := ⟨fun a b => Nat.le_total b.event_time a.event_time⟩

instance : IsTrans Event eventTimeDesc := ⟨fun _ _ _ h1 h2 => Nat.le_trans h2 h1⟩

/-- Handler of `GET /api/shipments/:id` (lines 79-89 of the source): the first
shipment with the id, together with its events sorted descending by
`event_time`. -/
def getShipment (id : Nat) (db : DB) : GetResult :=
  match db.shipments.find? (fun s => s.id == id) with
  | none => GetResult.notFound
  | some s =>
      GetResult.found s
        ((db.events.filter (fun e => e.shipment_id == id)).insertionSort eventTimeDesc)

/-- Request body of `POST /api/shipments`; an absent JSON field is `none`. -/
structure CreateBody where
  tracking_number : Option String
  sender_name : Option String
  receiver_name : Option String
  origin : Option String
  destination : Option String
  weight : Option String
  category : Option String
deriving DecidableEq

/-- Outcome of `POST /api/shipments`. -/
inductive CreateResult
  | validationError
  | conflict
  | created (shipment : Shipment)
deriving DecidableEq

/-- HTTP status code the create handler answers with. -/
def CreateResult.httpStatus : CreateResult → Nat
  | validationError => 400
  | conflict => 409
  | created _ => 201

/-- Line 95 of the source: all five required fields are truthy. -/
def requiredOk (b : CreateBody) : Bool :=
  truthy b.tracking_number && truthy b.sender_name && truthy b.receiver_name &&
  truthy b.origin && truthy b.destination

/-- The `shipment` object literal of the create handler (lines 102-107 of the
source). -/
def newShipment (t : Nat) (b : CreateBody) (db : DB) : Shipment :=
  { id := db.nextShipmentId
    tracking_number := b.tracking_number.getD ""
    sender_name := b.sender_name.getD ""
    receiver_name := b.receiver_name.getD ""
    origin := b.origin.getD ""
    destination := b.destination.getD ""
    weight := if truthy b.weight then b.weight else none
    category := orDefault b.category "General"
    status := "In Transit"
    created_at := t
    updated_at := t }

/-- The creation event pushed by the create handler (line 109 of the source). -/
def creationEvent (t : Nat) (b : CreateBody) (db : DB) : Event :=
  { id := db.nextEventId
    shipment_id := (newShipment t b db).id
    status := "In Transit"
    location := (newShipment t b db).origin
    notes := "Shipment created"
    event_time := t }

/-- Handler of `POST /api/shipments` at instant `t` (lines 92-113 of the
source): validate, reject a duplicate `tracking_number`, else push the new
shipment and its creation event and bump both counters. -/
def createShipment (t : Nat) (b : CreateBody) (db : DB) : CreateResult × DB :=
  if !requiredOk b then (CreateResult.validationError, db)
  else if db.shipments.any (fun s => s.tracking_number == b.tracking_number.getD "") then
    (CreateResult.conflict, db)
  else
    (CreateResult.created (newShipment t b db),
      { shipments := db.shipments ++ [newShipment t b db]
        events := db.events ++ [creationEvent t b db]
        nextShipmentId := db.nextShipmentId + 1
        nextEventId := db.nextEventId + 1 })

/-- The status enum of the PATCH handler (line 118 of the source). -/
def validStatuses : List String :=
  ["Pending", "Picked Up", "In Transit", "Out for Delivery", "Delivered", "Failed", "Returned"]

/-- Request body of `PATCH /api/shipments/:id/status`. -/
structure UpdateBody where
  status : Option String
  location : Option String
  notes : Option String
deriving DecidableEq

/-- Outcome of `PATCH /api/shipments/:id/status`. -/
inductive UpdateResult
  | validationError
  | notFound
  | success
deriving DecidableEq

/-- HTTP status code the update handler answers with. -/
def UpdateResult.httpStatus : UpdateResult → Nat
  | validationError => 400
  | notFound => 404
  | success => 200

/-- JS `validStatuses.includes(status)`; false when the field is absent. -/
def statusValid (b : UpdateBody) : Bool :=
  match b.status with
  | some s => validStatuses.contains s
  | none => false

/-- Mutate the first list element carrying the given id, as the source's
`find` followed by in-place mutation does. -/
def updateFirst (id : Nat) (f : Shipment → Shipment) : List Shipment → List Shipment
  | [] => []
  | s :: rest => if s.id == id then f s :: rest else s :: updateFirst id f rest

/-- The event pushed by the status-update handler (line 129 of the source),
with `location`/`notes` defaulted to `""`. -/
def updateEvent (t : Nat) (id : Nat) (b : UpdateBody) (db : DB) : Event :=
  { id := db.nextEventId
    shipment_id := id
    status := b.status.getD ""
    location := orDefault b.location ""
    notes := orDefault b.notes ""
    event_time := t }

/-- Handler of `PATCH /api/shipments/:id/status` at instant `t` (lines 116-133
of the source): reject a status outside the enum, reject an unknown id, else
set the shipment's status, refresh `updated_at`, and push one event. -/
def updateStatus (t : Nat) (id : Nat) (b : UpdateBody) (db : DB) : UpdateResult × DB :=
  if !statusValid b then (UpdateResult.validationError, db)
  else if !(db.shipments.any (fun s => s.id == id)) then (UpdateResult.notFound, db)
  else
    (UpdateResult.success,
      { shipments :=
          updateFirst id (fun s => { s with status := b.status.getD "", updated_at := t })
            db.shipments
        events := db.events ++ [updateEvent t id b db]
        nextShipmentId := db.nextShipmentId
        nextEventId := db.nextEventId + 1 })

/-- Outcome of `DELETE /api/shipments/:id`. -/
inductive DeleteResult
  | notFound
  | success
deriving DecidableEq

/-- Splice out the first shipment carrying the given id (the source's
`findIndex` + `splice(idx, 1)`). -/
def removeFirst (id : Nat) : List Shipment → List Shipment
  | [] => []
  | s :: rest => if s.id == id then rest else s :: removeFirst id rest

/-- Handler of `DELETE /api/shipments/:id` (lines 136-147 of the source):
remove the shipment and filter out every event referencing it. -/
def deleteShipment (id : Nat) (db : DB) : DeleteResult × DB :=
  if !(db.shipments.any (fun s => s.id == id)) then (DeleteResult.notFound, db)
  else
    (DeleteResult.success,
      { db with
          shipments := removeFirst id db.shipments
          events := db.events.filter (fun e => e.shipment_id != id) })

/-- The `totals` object of `GET /api/stats`. -/
structure Totals where
  total : Nat
  delivered : Nat
  in_transit : Nat
  pending : Nat
deriving DecidableEq

/-- The response of `GET /api/stats`; the count maps are kept as
insertion-ordered association lists, as `Object.entries` preserves the
first-seen key order of a JS object. -/
structure Stats where
  statusCounts : List (String × Nat)
  categoryCounts : List (String × Nat)
  dailyShipments : List (String × Nat)
  totals : Totals
deriving DecidableEq

/-- JS `m[key] = (m[key] || 0) + 1` on an insertion-ordered object. -/
def bump (key : String) : List (String × Nat) → List (String × Nat)
  | [] => [(key, 1)]
  | (k, n) :: rest => if k == key then (k, n + 1) :: rest else (k, n) :: bump key rest

/-- Count recorded for a key in an insertion-ordered object, `0` when the key
is absent. -/
def lookupCount (key : String) : List (String × Nat) → Nat
  | [] => 0
  | (k, n) :: rest => if k == key then n else lookupCount key rest

/-- Ascending order on the date key (the `localeCompare` sort of
`dailyShipments`). -/
def dayAsc : String × Nat → String × Nat → Prop := fun a b => a.1 ≤ b.1

instance : DecidableRel dayAsc := fun a b => inferInstanceAs (Decidable (a.1 ≤ b.1))

instance : IsTotal (String × Nat) dayAsc := ⟨fun a b => le_total a.1 b.1⟩

instance : IsTrans (String × Nat) dayAsc := ⟨fun _ _ _ h1 h2 => le_trans h1 h2⟩

/-- Handler of `GET /api/stats` (lines 150-178 of the source).  The single
`forEach` pass is decomposed into one accumulation per output, with the same
values: each `if (s.status === X) x++` counter is a count over the
collection.  The window test `new Date(created_at) >= thirtyDaysAgo` becomes
`cutoff ≤ created_at`, and the calendar-day key `created_at.slice(0, 10)`
becomes an abstract `dayOf` function on instants. -/
def computeStats (cutoff : Nat) (dayOf : Nat → String) (db : DB) : Stats :=
  let shipments := db.shipments
  { statusCounts := shipments.foldl (fun m s => bump s.status m) []
    categoryCounts := shipments.foldl (fun m s => bump s.category m) []
    dailyShipments :=
      (shipments.foldl
        (fun m s => if cutoff ≤ s.created_at then bump (dayOf s.created_at) m else m)
        []).insertionSort dayAsc
    totals :=
      { total := shipments.length
        delivered := shipments.countP (fun s => s.status == "Delivered")
        in_transit := shipments.countP (fun s => s.status == "In Transit")
        pending := shipments.countP (fun s => s.status == "Pending") } }

/-- One AfterShip checkpoint, restricted to the fields the handler reads; an
absent JSON field is `none`. -/
structure Checkpoint where
  checkpoint_time : Option String
  created_at : Option String
  message : Option String
  tag : Option String
  city : Option String
  state : Option String
  country_name : Option String
deriving DecidableEq

/-- One AfterShip tracking object. -/
structure Tracking where
  checkpoints : Option (List Checkpoint)
  tag : String
  slug : String
deriving DecidableEq

/-- Parsed AfterShip response body: `meta.code`, `meta.message`,
`data.trackings`. -/
structure ProviderResponse where
  metaCode : Nat
  metaMessage : String
  trackings : Option (List Tracking)
deriving DecidableEq

/-- One normalized event of the external-tracking response. -/
structure ExtEvent where
  date : Option String
  status : Option String
  location : String
  tag : Option String
deriving DecidableEq

/-- Response body of `GET /api/external-track/:tracking_number`; a field the
source's object literal omits is `none`. -/
structure TrackResult where
  events : List ExtEvent
  error : Option String
  current_status : Option String
  slug : Option String
deriving DecidableEq

/-- JS `a || b` on two optional strings. -/
def jsOr (a b : Option String) : Option String :=
  if truthy a then a else b

/-- JS `[city, state, country_name].filter(Boolean).join(', ')`. -/
def joinLoc (parts : List (Option String)) : String :=
  String.intercalate ", " ((parts.filterMap id).filter (fun s => s != ""))

/-- Normalization of one checkpoint (lines 213-218 of the source). -/
def mkExtEvent (cp : Checkpoint) : ExtEvent :=
  { date := jsOr cp.checkpoint_time cp.created_at
    status := jsOr cp.message cp.tag
    location := joinLoc [cp.city, cp.state, cp.country_name]
    tag := cp.tag }

/-- Handler of `GET /api/external-track/:tracking_number` (lines 181-224 of
the source), as a function of the configured API key (`""` when unset, as
`AFTERSHIP_KEY` defaults to `''`) and the provider's parsed response.  The
HTTPS transport and the URL-encoding of the tracking number are outside the
model; the handler's result does not depend on the tracking number itself. -/
def externalTrack (apiKey : String) (resp : ProviderResponse) : TrackResult :=
  if apiKey = "" then
    { events := [], error := some "No tracking API key configured",
      current_status := none, slug := none }
  else if resp.metaCode ≠ 200 then
    { events := [], error := some resp.metaMessage, current_status := none, slug := none }
  else
    match resp.trackings with
    | none => { events := [], error := none, current_status := none, slug := none }
    | some [] => { events := [], error := none, current_status := none, slug := none }
    | some (tr :: _) =>
        { events := (tr.checkpoints.getD []).map mkExtEvent
          error := none
          current_status := some tr.tag
          slug := some tr.slug }

/-- Uniqueness of `tracking_number` across the stored shipments. -/
def uniqueTracking (db : DB) : Prop :=
  db.shipments.Pairwise (fun a b => a.tracking_number ≠ b.tracking_number)

/-- Uniqueness of the shipment identifiers. -/
def uniqueIds (db : DB) : Prop :=
  db.shipments.Pairwise (fun a b => a.id ≠ b.id)

/-- Every stored shipment id is below the id counter, so the counter always
yields a fresh identifier. -/
def idsBounded (db : DB) : Prop :=
  ∀ s ∈ db.shipments, s.id < db.nextShipmentId

/-- Referential integrity: every event references an existing shipment. -/
def refIntegrity (db : DB) : Prop :=
  ∀ e ∈ db.events, ∃ s ∈ db.shipments, s.id = e.shipment_id

/-- Number of stored events referencing the given shipment id. -/
def countEvents (id : Nat) (db : DB) : Nat :=
  (db.events.filter (fun e => e.shipment_id == id)).length

/-- Run a sequence of status updates for one shipment id, each update carrying
its own instant and body. -/
def applyUpdates (id : Nat) : List (Nat × UpdateBody) → DB → DB
  | [], db => db
  | (t, b) :: rest, db => applyUpdates id rest (updateStatus t id b db).2

/-- Every update of the sequence succeeds when run in order. -/
def allSucceed (id : Nat) : List (Nat × UpdateBody) → DB → Bool
  | [], _ => true
  | (t, b) :: rest, db =>
      ((updateStatus t id b db).1 == UpdateResult.success) &&
      allSucceed id rest (updateStatus t id b db).2

/-! Characterizations of the handler branches. -/

theorem createShipment_invalid (t : Nat) (b : CreateBody) (db : DB)
    (h : requiredOk b = false) :
    createShipment t b db = (CreateResult.validationError, db) := by
  simp [createShipment, h]

theorem createShipment_conflict_eq (t : Nat) (b : CreateBody) (db : DB)
    (h1 : requiredOk b = true)
    (h2 : db.shipments.any (fun s => s.tracking_number == b.tracking_number.getD "") = true) :
    createShipment t b db = (CreateResult.conflict, db) := by
  simp [createShipment, h1, h2]

theorem createShipment_success_eq (t : Nat) (b : CreateBody) (db : DB)
    (h1 : requiredOk b = true)
    (h2 : db.shipments.any (fun s => s.tracking_number == b.tracking_number.getD "") = false) :
    createShipment t b db =
      (CreateResult.created (newShipment t b db),
        { shipments := db.shipments ++ [newShipment t b db]
          events := db.events ++ [creationEvent t b db]
          nextShipmentId := db.nextShipmentId + 1
          nextEventId := db.nextEventId + 1 }) := by
  simp [createShipment, h1, h2]

theorem updateStatus_invalid (t id : Nat) (b : UpdateBody) (db : DB)
    (h : statusValid b = false) :
    updateStatus t id b db = (UpdateResult.validationError, db) := by
  simp [updateStatus, h]

theorem updateStatus_missing (t id : Nat) (b : UpdateBody) (db : DB)
    (h1 : statusValid b = true)
    (h2 : db.shipments.any (fun s => s.id == id) = false) :
    updateStatus t id b db = (UpdateResult.notFound, db) := by
  simp [updateStatus, h1, h2]

theorem updateStatus_success_eq (t id : Nat) (b : UpdateBody) (db : DB)
    (h1 : statusValid b = true)
    (h2 : db.shipments.any (fun s => s.id == id) = true) :
    updateStatus t id b db =
      (UpdateResult.success,
        { shipments :=
            updateFirst id (fun s => { s with status := b.status.getD "", updated_at := t })
              db.shipments
          events := db.events ++ [updateEvent t id b db]
          nextShipmentId := db.nextShipmentId
          nextEventId := db.nextEventId + 1 }) := by
  simp [updateStatus, h1, h2]

theorem updateStatus_success_inv (t id : Nat) (b : UpdateBody) (db : DB)
    (h : (updateStatus t id b db).1 = UpdateResult.success) :
    statusValid b = true ∧ db.shipments.any (fun s => s.id == id) = true := by
  have h1 : statusValid b = true := by
    by_contra h1
    rw [Bool.not_eq_true] at h1
    simp [updateStatus, h1] at h
  have h2 : db.shipments.any (fun s => s.id == id) = true := by
    by_contra h2
    rw [Bool.not_eq_true] at h2
    simp [updateStatus, h1, h2] at h
  exact ⟨h1, h2⟩

theorem deleteShipment_missing (id : Nat) (db : DB)
    (h : db.shipments.any (fun s => s.id == id) = false) :
    deleteShipment id db = (DeleteResult.notFound, db) := by
  simp [deleteShipment, h]

theorem deleteShipment_success_eq (id : Nat) (db : DB)
    (h : db.shipments.any (fun s => s.id == id) = true) :
    deleteShipment id db =
      (DeleteResult.success,
        { db with
            shipments := removeFirst id db.shipments
            events := db.events.filter (fun e => e.shipment_id != id) }) := by
  simp [deleteShipment, h]

/-! Lemmas about `updateFirst` and `removeFirst`. -/

theorem updateFirst_map {β : Type} (id : Nat) (f : Shipment → Shipment) (g : Shipment → β)
    (hfg : ∀ s, g (f s) = g s) (l : List Shipment) :
    (updateFirst id f l).map g = l.map g := by
  induction l with
  | nil => rfl
  | cons s rest ih =>
    simp only [updateFirst]
    by_cases h : s.id = id
    · simp [h, hfg]
    · simp [h, ih]

theorem removeFirst_sublist (id : Nat) (l : List Shipment) :
    (removeFirst id l).Sublist l := by
  induction l with
  | nil => exact List.Sublist.refl []
  | cons s rest ih =>
    simp only [removeFirst]
    by_cases h : s.id = id
    · simp only [h, beq_self_eq_true, if_true]
      exact List.sublist_cons_self s rest
    · rw [if_neg (by simp [h])]
      exact ih.cons₂ s

theorem mem_removeFirst_of_ne {s : Shipment} (id : Nat) (l : List Shipment)
    (hmem : s ∈ l) (hne : s.id ≠ id) : s ∈ removeFirst id l := by
  induction l with
  | nil => simp at hmem
  | cons a rest ih =>
    simp only [removeFirst]
    rcases List.mem_cons.mp hmem with h | h
    · subst h
      rw [if_neg (by simp [hne])]
      exact List.mem_cons_self s _
    · by_cases ha : a.id = id
      · simp only [ha, beq_self_eq_true, if_true]
        exact h
      · rw [if_neg (by simp [ha])]
        exact List.mem_cons_of_mem a (ih h)

theorem removeFirst_id_ne (id : Nat) (l : List Shipment)
    (hu : l.Pairwise (fun a b => a.id ≠ b.id)) :
    ∀ s ∈ removeFirst id l, s.id ≠ id := by
  induction l with
  | nil => intro s hs; simp [removeFirst] at hs
  | cons a rest ih =>
    rw [List.pairwise_cons] at hu
    obtain ⟨ha, hrest⟩ := hu
    intro s hs
    simp only [removeFirst] at hs
    by_cases h : a.id = id
    · rw [if_pos (by simp [h])] at hs
      intro heq
      exact ha s hs (by rw [h, heq])
    · rw [if_neg (by simp [h])] at hs
      rcases List.mem_cons.mp hs with h1 | h1
      · subst h1; exact h
      · exact ih hrest s h1

/-- Transport of tracking-number pairwise distinctness along an equality of
the tracking-number columns. -/
theorem pairwise_tn_of_map {l₁ l₂ : List Shipment}
    (h : l₁.map (fun s => s.tracking_number) = l₂.map (fun s => s.tracking_number))
    (hp : l₂.Pairwise (fun a b => a.tracking_number ≠ b.tracking_number)) :
    l₁.Pairwise (fun a b => a.tracking_number ≠ b.tracking_number) := by
  have h2 := (List.pairwise_map (f := fun s : Shipment => s.tracking_number)
    (R := fun a b => a ≠ b)).mpr hp
  rw [← h] at h2
  exact (List.pairwise_map (f := fun s : Shipment => s.tracking_number)
    (R := fun a b => a ≠ b)).mp h2

/-! Concrete store states and request bodies used by the witnesses. -/

def demoShipment : Shipment :=
  { id := 1, tracking_number := "TRK1", sender_name := "A", receiver_name := "B",
    origin := "X", destination := "Y", weight := none, category := "General",
    status := "In Transit", created_at := 0, updated_at := 0 }

def demoEvent : Event :=
  { id := 1, shipment_id := 1, status := "In Transit", location := "X",
    notes := "Shipment created", event_time := 0 }

def demoDB0 : DB := { shipments := [], events := [], nextShipmentId := 1, nextEventId := 1 }

def demoDB1 : DB :=
  { shipments := [demoShipment], events := [demoEvent], nextShipmentId := 2, nextEventId := 2 }

def demoBody : CreateBody :=
  { tracking_number := some "TRK1", sender_name := some "A", receiver_name := some "B",
    origin := some "X", destination := some "Y", weight := none, category := none }

def demoBadBody : CreateBody :=
  { tracking_number := some "TRK9", sender_name := none, receiver_name := some "B",
    origin := some "X", destination := some "Y", weight := none, category := none }

/-- C1: in every store where some shipment already carries the requested
tracking number, a well-formed create request answers Conflict (HTTP 409) and
leaves the store untouched, so no second record with that tracking number is
created; moreover tracking-number uniqueness is preserved by create, status
update, and delete alike. -/
theorem C1_tracking_number_unique :
    (∀ t b db tn, b.tracking_number = some tn → requiredOk b = true →
      (∃ s ∈ db.shipments, s.tracking_number = tn) →
      createShipment t b db = (CreateResult.conflict, db) ∧
      CreateResult.conflict.httpStatus = 409) ∧
    (∀ t b db, uniqueTracking db → uniqueTracking (createShipment t b db).2) ∧
    (∀ t id b db, uniqueTracking db → uniqueTracking (updateStatus t id b db).2) ∧
    (∀ id db, uniqueTracking db → uniqueTracking (deleteShipment id db).2) := by
  refine ⟨?_, ?_, ?_, ?_⟩
  · intro t b db tn htn hreq hex
    obtain ⟨s, hs, hst⟩ := hex
    have hany : db.shipments.any
        (fun s => s.tracking_number == b.tracking_number.getD "") = true :=
      List.any_eq_true.mpr ⟨s, hs, by simp [hst, htn]⟩
    exact ⟨createShipment_conflict_eq t b db hreq hany, rfl⟩
  · intro t b db h
    by_cases h1 : requiredOk b = true
    · by_cases h2 : db.shipments.any
          (fun s => s.tracking_number == b.tracking_number.getD "") = true
      · rw [createShipment_conflict_eq t b db h1 h2]; exact h
      · rw [Bool.not_eq_true] at h2
        rw [createShipment_success_eq t b db h1 h2]
        unfold uniqueTracking at h ⊢
        simp only
        rw [List.pairwise_append]
        refine ⟨h, List.pairwise_singleton _ _, ?_⟩
        intro a ha s' hs'
        rw [List.mem_singleton] at hs'
        subst hs'
        have hne := List.any_eq_false.mp h2 a ha
        simp only [newShipment]
        intro heq
        exact hne (by simp [heq])
    · rw [Bool.not_eq_true] at h1
      rw [createShipment_invalid t b db h1]
      exact h
  · intro t id b db h
    by_cases h1 : statusValid b = true
    · by_cases h2 : db.shipments.any (fun s => s.id == id) = true
      · rw [updateStatus_success_eq t id b db h1 h2]
        unfold uniqueTracking at h ⊢
        show List.Pairwise (fun a b => a.tracking_number ≠ b.tracking_number)
          (updateFirst id (fun s => { s with status := b.status.getD "", updated_at := t })
            db.shipments)
        exact pairwise_tn_of_map
          (updateFirst_map id
            (fun s => { s with status := b.status.getD "", updated_at := t })
            (fun s => s.tracking_number) (fun s => rfl) db.shipments) h
      · rw [Bool.not_eq_true] at h2
        rw [updateStatus_missing t id b db h1 h2]; exact h
    · rw [Bool.not_eq_true] at h1
      rw [updateStatus_invalid t id b db h1]; exact h
  · intro id db h
    by_cases h1 : db.shipments.any (fun s => s.id == id) = true
    · rw [deleteShipment_success_eq id db h1]
      unfold uniqueTracking at h ⊢
      exact List.Pairwise.sublist (removeFirst_sublist id db.shipments) h
    · rw [Bool.not_eq_true] at h1
      rw [deleteShipment_missing id db h1]; exact h

/-- Witness for C1: a duplicate of `"TRK1"` against a store already holding
it answers Conflict and changes nothing. -/
theorem C1_witness :
    createShipment 5 demoBody demoDB1 = (CreateResult.conflict, demoDB1) ∧
    CreateResult.conflict.httpStatus = 409 :=
  C1_tracking_number_unique.1 5 demoBody demoDB1 "TRK1" rfl (by decide)
    ⟨demoShipment, by decide, rfl⟩

/-- C2: a create request with any required field absent or empty answers
ValidationError (HTTP 400) and writes nothing: the store comes back unchanged,
so no shipment record and no event is persisted. -/
theorem C2_validation_no_write (t : Nat) (b : CreateBody) (db : DB)
    (h : truthy b.tracking_number = false ∨ truthy b.sender_name = false ∨
         truthy b.receiver_name = false ∨ truthy b.origin = false ∨
         truthy b.destination = false) :
    createShipment t b db = (CreateResult.validationError, db) ∧
    CreateResult.validationError.httpStatus = 400 ∧
    (createShipment t b db).2.shipments = db.shipments ∧
    (createShipment t b db).2.events = db.events := by
  have hreq : requiredOk b = false := by
    unfold requiredOk
    rcases h with h | h | h | h | h <;> simp [h]
  have heq := createShipment_invalid t b db hreq
  exact ⟨heq, rfl, by rw [heq], by rw [heq]⟩

/-- Witness for C2: a create request missing `sender_name` is rejected with
HTTP 400 and the empty store stays empty. -/
theorem C2_witness :
    createShipment 3 demoBadBody demoDB0 = (CreateResult.validationError, demoDB0) ∧
    CreateResult.validationError.httpStatus = 400 ∧
    (createShipment 3 demoBadBody demoDB0).2.shipments = demoDB0.shipments ∧
    (createShipment 3 demoBadBody demoDB0).2.events = demoDB0.events :=
  C2_validation_no_write 3 demoBadBody demoDB0 (Or.inr (Or.inl rfl))

/-- C5: a status update carrying a status outside the enum answers
ValidationError (HTTP 400) and mutates nothing, whatever the shipment id:
the store, its shipments and its events come back unchanged. -/
theorem C5_invalid_status (t id : Nat) (b : UpdateBody) (db : DB) (st : String)
    (hst : b.status = some st) (hout : validStatuses.contains st = false) :
    updateStatus t id b db = (UpdateResult.validationError, db) ∧
    UpdateResult.validationError.httpStatus = 400 ∧
    (updateStatus t id b db).2.shipments = db.shipments ∧
    (updateStatus t id b db).2.events = db.events := by
  have hv : statusValid b = false := by
    unfold statusValid
    rw [hst]
    exact hout
  have heq := updateStatus_invalid t id b db hv
  exact ⟨heq, rfl, by rw [heq], by rw [heq]⟩

/-- Witness for C5: the status `"Bogus"` is rejected with HTTP 400 and the
one-shipment store is untouched. -/
theorem C5_witness :
    updateStatus 7 1 { status := some "Bogus", location := none, notes := none } demoDB1 =
      (UpdateResult.validationError, demoDB1) ∧
    UpdateResult.validationError.httpStatus = 400 ∧
    (updateStatus 7 1 { status := some "Bogus", location := none, notes := none }
      demoDB1).2.shipments = demoDB1.shipments ∧
    (updateStatus 7 1 { status := some "Bogus", location := none, notes := none }
      demoDB1).2.events = demoDB1.events :=
  C5_invalid_status 7 1 { status := some "Bogus", location := none, notes := none }
    demoDB1 "Bogus" rfl (by decide)

/-- C6: deleting an id that resolves to a shipment answers success, removes
that shipment and every event referencing it in the one saved store, and a
subsequent get for that id answers NotFound; deleting an unresolved id
answers NotFound and changes nothing. -/
theorem C6_delete_cascade (id : Nat) (db : DB) :
    ((∃ s ∈ db.shipments, s.id = id) → uniqueIds db →
      (deleteShipment id db).1 = DeleteResult.success ∧
      (deleteShipment id db).2.shipments = removeFirst id db.shipments ∧
      (deleteShipment id db).2.events = db.events.filter (fun e => e.shipment_id != id) ∧
      getShipment id (deleteShipment id db).2 = GetResult.notFound) ∧
    ((∀ s ∈ db.shipments, s.id ≠ id) →
      deleteShipment id db = (DeleteResult.notFound, db)) := by
  constructor
  · intro hex hu
    have hu' : db.shipments.Pairwise (fun a b => a.id ≠ b.id) := hu
    obtain ⟨s, hs, hsid⟩ := hex
    have hany : db.shipments.any (fun s => s.id == id) = true :=
      List.any_eq_true.mpr ⟨s, hs, by simp [hsid]⟩
    rw [deleteShipment_success_eq id db hany]
    refine ⟨rfl, rfl, rfl, ?_⟩
    have hfind : List.find? (fun s => s.id == id) (removeFirst id db.shipments) = none := by
      rw [List.find?_eq_none]
      intro x hx
      simp only [Bool.not_eq_true, beq_eq_false_iff_ne, ne_eq]
      exact removeFirst_id_ne id db.shipments hu' x hx
    simp [getShipment, hfind]
  · intro hall
    have hany : db.shipments.any (fun s => s.id == id) = false := by
      rw [List.any_eq_false]
      intro x hx
      simp [hall x hx]
    exact deleteShipment_missing id db hany

/-- Witness for C6: deleting shipment 1 from the one-shipment store removes
it and its event, and a get for id 1 then answers NotFound. -/
theorem C6_witness :
    (deleteShipment 1 demoDB1).1 = DeleteResult.success ∧
    (deleteShipment 1 demoDB1).2.shipments = removeFirst 1 demoDB1.shipments ∧
    (deleteShipment 1 demoDB1).2.events = demoDB1.events.filter (fun e => e.shipment_id != 1) ∧
    getShipment 1 (deleteShipment 1 demoDB1).2 = GetResult.notFound :=
  (C6_delete_cascade 1 demoDB1).1 ⟨demoShipment, by decide, rfl⟩ (by simp [uniqueIds, demoDB1])

/-- C3: a valid, non-duplicate create request succeeds with HTTP 201 and the
new shipment: the identifier is the next counter value (fresh whenever the
stored ids are below the counter), the status is the initial enum value
`"In Transit"`, both timestamps carry the current instant, the category
defaults to `"General"` when omitted, and exactly one creation event is
appended, carrying the initial status, the shipment's origin as location and
the notes `"Shipment created"`. -/
theorem C3_create_success (t : Nat) (b : CreateBody) (db : DB)
    (h1 : requiredOk b = true)
    (h2 : db.shipments.any (fun s => s.tracking_number == b.tracking_number.getD "") = false) :
    createShipment t b db =
      (CreateResult.created (newShipment t b db),
        { shipments := db.shipments ++ [newShipment t b db]
          events := db.events ++ [creationEvent t b db]
          nextShipmentId := db.nextShipmentId + 1
          nextEventId := db.nextEventId + 1 }) ∧
    (CreateResult.created (newShipment t b db)).httpStatus = 201 ∧
    (newShipment t b db).id = db.nextShipmentId ∧
    (idsBounded db → ∀ s' ∈ db.shipments, s'.id ≠ (newShipment t b db).id) ∧
    (newShipment t b db).status = "In Transit" ∧
    (newShipment t b db).created_at = t ∧
    (newShipment t b db).updated_at = t ∧
    (b.category = none → (newShipment t b db).category = "General") ∧
    (creationEvent t b db).shipment_id = (newShipment t b db).id ∧
    (creationEvent t b db).status = (newShipment t b db).status ∧
    (creationEvent t b db).location = (newShipment t b db).origin ∧
    (creationEvent t b db).notes = "Shipment created" ∧
    (creationEvent t b db).event_time = t := by
  refine ⟨createShipment_success_eq t b db h1 h2, rfl, rfl, ?_, rfl, rfl, rfl, ?_,
    rfl, rfl, rfl, rfl, rfl⟩
  · intro hb s' hs' heq
    have hlt := hb s' hs'
    rw [heq] at hlt
    simp [newShipment] at hlt
  · intro hc
    simp [newShipment, orDefault, hc]

/-- Witness for C3: creating `"TRK1"` in the empty store yields the expected
store and the category defaults to `"General"`. -/
theorem C3_witness :
    createShipment 5 demoBody demoDB0 =
      (CreateResult.created (newShipment 5 demoBody demoDB0),
        { shipments := demoDB0.shipments ++ [newShipment 5 demoBody demoDB0]
          events := demoDB0.events ++ [creationEvent 5 demoBody demoDB0]
          nextShipmentId := demoDB0.nextShipmentId + 1
          nextEventId := demoDB0.nextEventId + 1 }) ∧
    (newShipment 5 demoBody demoDB0).category = "General" :=
  ⟨(C3_create_success 5 demoBody demoDB0 (by decide) (by decide)).1,
   (C3_create_success 5 demoBody demoDB0 (by decide) (by decide)).2.2.2.2.2.2.2.1 rfl⟩

/-- C10: referential integrity — every stored event references a stored
shipment — is preserved by the create, status-update, and delete handlers,
whatever the request: create appends an event only for the shipment it just
pushed, the update appends an event only when the id resolved, and delete
filters out every event of the removed shipment. -/
theorem C10_referential_integrity :
    (∀ t b db, refIntegrity db → refIntegrity (createShipment t b db).2) ∧
    (∀ t id b db, refIntegrity db → refIntegrity (updateStatus t id b db).2) ∧
    (∀ id db, refIntegrity db → refIntegrity (deleteShipment id db).2) := by
  refine ⟨?_, ?_, ?_⟩
  · intro t b db h
    by_cases h1 : requiredOk b = true
    · by_cases h2 : db.shipments.any
          (fun s => s.tracking_number == b.tracking_number.getD "") = true
      · rw [createShipment_conflict_eq t b db h1 h2]; exact h
      · rw [Bool.not_eq_true] at h2
        rw [createShipment_success_eq t b db h1 h2]
        intro e he
        show ∃ s ∈ db.shipments ++ [newShipment t b db], s.id = e.shipment_id
        rcases List.mem_append.mp he with he | he
        · obtain ⟨s, hs, hsid⟩ := h e he
          exact ⟨s, List.mem_append_left _ hs, hsid⟩
        · rw [List.mem_singleton] at he
          subst he
          exact ⟨newShipment t b db, List.mem_append_right _ (List.mem_singleton_self _), rfl⟩
    · rw [Bool.not_eq_true] at h1
      rw [createShipment_invalid t b db h1]; exact h
  · intro t id b db h
    by_cases h1 : statusValid b = true
    · by_cases h2 : db.shipments.any (fun s => s.id == id) = true
      · rw [updateStatus_success_eq t id b db h1 h2]
        intro e he
        show ∃ s ∈ updateFirst id
            (fun s => { s with status := b.status.getD "", updated_at := t }) db.shipments,
          s.id = e.shipment_id
        have hids := updateFirst_map id
          (fun s => { s with status := b.status.getD "", updated_at := t })
          (fun s => s.id) (fun s => rfl) db.shipments
        rcases List.mem_append.mp he with he | he
        · obtain ⟨s, hs, hsid⟩ := h e he
          have hmm : e.shipment_id ∈ (updateFirst id
              (fun s => { s with status := b.status.getD "", updated_at := t })
              db.shipments).map (fun s => s.id) := by
            rw [hids]
            exact List.mem_map.mpr ⟨s, hs, hsid⟩
          obtain ⟨s', hs', hs'id⟩ := List.mem_map.mp hmm
          exact ⟨s', hs', hs'id⟩
        · rw [List.mem_singleton] at he
          subst he
          obtain ⟨s, hs, hsid⟩ := List.any_eq_true.mp h2
          have hsid' : s.id = id := by simpa using hsid
          have hmm : id ∈ (updateFirst id
              (fun s => { s with status := b.status.getD "", updated_at := t })
              db.shipments).map (fun s => s.id) := by
            rw [hids]
            exact List.mem_map.mpr ⟨s, hs, hsid'⟩
          obtain ⟨s', hs', hs'id⟩ := List.mem_map.mp hmm
          exact ⟨s', hs', hs'id⟩
      · rw [Bool.not_eq_true] at h2
        rw [updateStatus_missing t id b db h1 h2]; exact h
    · rw [Bool.not_eq_true] at h1
      rw [updateStatus_invalid t id b db h1]; exact h
  · intro id db h
    by_cases h1 : db.shipments.any (fun s => s.id == id) = true
    · rw [deleteShipment_success_eq id db h1]
      intro e he
      show ∃ s ∈ removeFirst id db.shipments, s.id = e.shipment_id
      have hmem := List.mem_of_mem_filter he
      have hne : e.shipment_id ≠ id := by
        have := List.of_mem_filter he
        simpa using this
      obtain ⟨s, hs, hsid⟩ := h e hmem
      exact ⟨s, mem_removeFirst_of_ne id db.shipments hs (by rw [hsid]; exact hne), hsid⟩
    · rw [Bool.not_eq_true] at h1
      rw [deleteShipment_missing id db h1]; exact h

/-- Witness for C10: referential integrity survives a concrete create, a
concrete status update, and a concrete delete. -/
theorem C10_witness :
    refIntegrity (createShipment 5 demoBody demoDB0).2 ∧
    refIntegrity (updateStatus 7 1
      { status := some "Delivered", location := none, notes := none } demoDB1).2 ∧
    refIntegrity (deleteShipment 1 demoDB1).2 :=
  ⟨C10_referential_integrity.1 5 demoBody demoDB0 (by simp [refIntegrity, demoDB0]),
   C10_referential_integrity.2.1 7 1
     { status := some "Delivered", location := none, notes := none } demoDB1
     (by simp [refIntegrity, demoDB1, demoEvent, demoShipment]),
   C10_referential_integrity.2.2 1 demoDB1
     (by simp [refIntegrity, demoDB1, demoEvent, demoShipment])⟩

/-! Lemmas for the event-history claim. -/

theorem countEvents_update_success (t id : Nat) (b : UpdateBody) (db : DB)
    (h : (updateStatus t id b db).1 = UpdateResult.success) :
    countEvents id (updateStatus t id b db).2 = countEvents id db + 1 := by
  obtain ⟨h1, h2⟩ := updateStatus_success_inv t id b db h
  rw [updateStatus_success_eq t id b db h1 h2]
  simp [countEvents, List.filter_append, updateEvent]

theorem updateStatus_ids (t id : Nat) (b : UpdateBody) (db : DB) :
    (updateStatus t id b db).2.shipments.map (fun s => s.id) =
      db.shipments.map (fun s => s.id) := by
  by_cases h1 : statusValid b = true
  · by_cases h2 : db.shipments.any (fun s => s.id == id) = true
    · rw [updateStatus_success_eq t id b db h1 h2]
      exact updateFirst_map id
        (fun s => { s with status := b.status.getD "", updated_at := t })
        (fun s => s.id) (fun s => rfl) db.shipments
    · rw [Bool.not_eq_true] at h2
      rw [updateStatus_missing t id b db h1 h2]
  · rw [Bool.not_eq_true] at h1
    rw [updateStatus_invalid t id b db h1]

theorem applyUpdates_ids (id : Nat) (us : List (Nat × UpdateBody)) (db : DB) :
    (applyUpdates id us db).shipments.map (fun s => s.id) =
      db.shipments.map (fun s => s.id) := by
  induction us generalizing db with
  | nil => rfl
  | cons u rest ih =>
    obtain ⟨t, b⟩ := u
    rw [applyUpdates, ih, updateStatus_ids]

theorem applyUpdates_count (id : Nat) (us : List (Nat × UpdateBody)) (db : DB)
    (h : allSucceed id us db = true) :
    countEvents id (applyUpdates id us db) = countEvents id db + us.length := by
  induction us generalizing db with
  | nil => simp [applyUpdates]
  | cons u rest ih =>
    obtain ⟨t, b⟩ := u
    rw [allSucceed, Bool.and_eq_true] at h
    obtain ⟨h1, h2⟩ := h
    rw [beq_iff_eq] at h1
    rw [applyUpdates, ih _ h2, countEvents_update_success t id b db h1]
    simp only [List.length_cons]
    omega

theorem getShipment_found (id : Nat) (db : DB)
    (h : id ∈ db.shipments.map (fun s => s.id)) :
    ∃ sh evs, getShipment id db = GetResult.found sh evs ∧
      evs.length = countEvents id db ∧ evs.Pairwise eventTimeDesc := by
  obtain ⟨s, hs, hsid⟩ := List.mem_map.mp h
  have hfind : (db.shipments.find? (fun s => s.id == id)).isSome := by
    rw [List.find?_isSome]
    exact ⟨s, hs, by simp [hsid]⟩
  obtain ⟨sh, hsh⟩ := Option.isSome_iff_exists.mp hfind
  refine ⟨sh, (db.events.filter (fun e => e.shipment_id == id)).insertionSort eventTimeDesc,
    ?_, ?_, ?_⟩
  · rw [getShipment, hsh]
  · exact (List.perm_insertionSort eventTimeDesc _).length_eq
  · exact List.sorted_insertionSort eventTimeDesc _

/-- C4: after a successful create followed by N successful status updates of
that shipment, the detail endpoint answers with exactly N+1 events (the
creation event plus one appended per update), sorted descending by
`event_time`; and every successful update whose body omits `location` and
`notes` appends its event with both defaulted to `""`. -/
theorem C4_event_history :
    (∀ t b db us, requiredOk b = true →
      db.shipments.any (fun s => s.tracking_number == b.tracking_number.getD "") = false →
      (∀ e ∈ db.events, e.shipment_id ≠ db.nextShipmentId) →
      allSucceed db.nextShipmentId us (createShipment t b db).2 = true →
      ∃ sh evs,
        getShipment db.nextShipmentId
            (applyUpdates db.nextShipmentId us (createShipment t b db).2) =
          GetResult.found sh evs ∧
        evs.length = us.length + 1 ∧
        evs.Pairwise eventTimeDesc) ∧
    (∀ t id b db, b.location = none → b.notes = none →
      (updateStatus t id b db).1 = UpdateResult.success →
      (updateStatus t id b db).2.events =
        db.events ++ [{ id := db.nextEventId, shipment_id := id, status := b.status.getD "",
                        location := "", notes := "", event_time := t }]) := by
  constructor
  · intro t b db us h1 h2 hN hs
    have hdbeq : (createShipment t b db).2 =
        { shipments := db.shipments ++ [newShipment t b db]
          events := db.events ++ [creationEvent t b db]
          nextShipmentId := db.nextShipmentId + 1
          nextEventId := db.nextEventId + 1 } := by
      rw [createShipment_success_eq t b db h1 h2]
    have hnil : db.events.filter (fun e => e.shipment_id == db.nextShipmentId) = [] := by
      rw [List.filter_eq_nil_iff]
      intro e he
      simp [hN e he]
    have hcount1 : countEvents db.nextShipmentId (createShipment t b db).2 = 1 := by
      rw [hdbeq]
      simp [countEvents, List.filter_append, hnil, creationEvent, newShipment]
    have hmem : db.nextShipmentId ∈
        (applyUpdates db.nextShipmentId us (createShipment t b db).2).shipments.map
          (fun s => s.id) := by
      rw [applyUpdates_ids, hdbeq]
      simp [newShipment]
    obtain ⟨sh, evs, hget, hlen, hsorted⟩ :=
      getShipment_found db.nextShipmentId
        (applyUpdates db.nextShipmentId us (createShipment t b db).2) hmem
    refine ⟨sh, evs, hget, ?_, hsorted⟩
    rw [hlen, applyUpdates_count db.nextShipmentId us (createShipment t b db).2 hs, hcount1]
    omega
  · intro t id b db hl hn h
    obtain ⟨h1, h2⟩ := updateStatus_success_inv t id b db h
    rw [updateStatus_success_eq t id b db h1 h2]
    simp [updateEvent, orDefault, hl, hn]

/-- Two concrete successful status updates used by the C4 witness. -/
def demoUpdates : List (Nat × UpdateBody) :=
  [(1, { status := some "Delivered", location := some "Warehouse 3",
         notes := some "left at door" }),
   (2, { status := some "Returned", location := none, notes := none })]

/-- Witness for C4: a create followed by the two demo updates leaves the
shipment with exactly three events, sorted descending. -/
theorem C4_witness :
    ∃ sh evs,
      getShipment demoDB0.nextShipmentId
          (applyUpdates demoDB0.nextShipmentId demoUpdates
            (createShipment 0 demoBody demoDB0).2) =
        GetResult.found sh evs ∧
      evs.length = demoUpdates.length + 1 ∧
      evs.Pairwise eventTimeDesc :=
  C4_event_history.1 0 demoBody demoDB0 demoUpdates (by decide) (by decide) (by decide)
    (by decide)

/-- The combined keep-predicate of the list endpoint: the search filter when
the query is truthy, and the exact-status filter when the status is truthy
and not the sentinel `"All"` (an empty-string query parameter is falsy in the
source and therefore counts as absent). -/
def keepPred (search status : Option String) (sh : Shipment) : Bool :=
  (if truthy search then matchesSearch ((search.getD "").toLower) sh else true) &&
  (if truthy status && status != some "All" then sh.status == status.getD "" else true)

/-- C7: for every store and every `(search, status)` pair, the list endpoint
returns exactly the shipments kept by the case-insensitive five-field search
match and the exact status match (skipped for the sentinel `"All"`), sorted
descending by `created_at`. -/
theorem C7_list_filter_sort (search status : Option String) (db : DB) :
    (listShipments search status db).Perm (db.shipments.filter (keepPred search status)) ∧
    List.Pairwise createdDesc (listShipments search status db) := by
  constructor
  · simp only [listShipments]
    refine (List.perm_insertionSort createdDesc _).trans ?_
    unfold keepPred
    by_cases h1 : truthy search = true
    · by_cases h2 : (truthy status && status != some "All") = true
      · simp only [h1, h2, if_true, List.filter_filter]
        have heq : db.shipments.filter
              (fun a => (a.status == status.getD "") &&
                matchesSearch ((search.getD "").toLower) a) =
            db.shipments.filter
              (fun sh => matchesSearch ((search.getD "").toLower) sh &&
                (sh.status == status.getD "")) :=
          List.filter_congr (fun a _ => Bool.and_comm _ _)
        rw [heq]
      · rw [Bool.not_eq_true] at h2
        simp only [h1, h2, if_true, Bool.false_eq_true, if_false, Bool.and_true]
        exact List.Perm.refl _
    · rw [Bool.not_eq_true] at h1
      by_cases h2 : (truthy status && status != some "All") = true
      · simp only [h1, h2, if_true, Bool.false_eq_true, if_false, Bool.true_and]
        exact List.Perm.refl _
      · rw [Bool.not_eq_true] at h2
        simp [h1, h2]
  · simp only [listShipments]
    exact List.sorted_insertionSort createdDesc _

/-! Lemmas for the stats claim. -/

theorem lookupCount_bump (key k : String) (m : List (String × Nat)) :
    lookupCount key (bump k m) =
      if k = key then lookupCount key m + 1 else lookupCount key m := by
  induction m with
  | nil =>
    by_cases h : k = key
    · simp [bump, lookupCount, h]
    · simp [bump, lookupCount, h]
  | cons p rest ih =>
    obtain ⟨k', n⟩ := p
    by_cases h : k' = k
    · by_cases h2 : k = key
      · simp [bump, lookupCount, h, h2]
      · simp [bump, lookupCount, h, h2]
    · by_cases h3 : k' = key
      · subst h3
        have h4 : ¬k = k' := fun hk => h hk.symm
        simp [bump, lookupCount, h, h4]
      · simp [bump, lookupCount, h, h3, ih]

theorem lookupCount_foldl (key : String) (g : Shipment → String) (l : List Shipment)
    (m : List (String × Nat)) :
    lookupCount key (l.foldl (fun m s => bump (g s) m) m) =
      lookupCount key m + l.countP (fun s => g s == key) := by
  induction l generalizing m with
  | nil => simp
  | cons s rest ih =>
    rw [List.foldl_cons, ih, lookupCount_bump]
    by_cases h : g s = key
    · simp only [List.countP_cons, h, if_true, beq_self_eq_true, if_pos]
      omega
    · simp only [List.countP_cons]
      rw [if_neg h, if_neg (by simp [h])]
      omega

/-- Lookup of any status in the accumulated `statusCounts` object is the
count of shipments carrying that status. -/
theorem statusCounts_lookup (cutoff : Nat) (dayOf : Nat → String) (db : DB) (st : String) :
    lookupCount st (computeStats cutoff dayOf db).statusCounts =
      db.shipments.countP (fun s => s.status == st) := by
  show lookupCount st (db.shipments.foldl (fun m s => bump s.status m) []) = _
  rw [lookupCount_foldl st (fun s => s.status) db.shipments []]
  simp [lookupCount]

/-- C8: `totals.total` always equals the length of the unfiltered list, the
three named `totals` fields count exactly the statuses Delivered, In Transit
and Pending, every status is counted in `statusCounts`, and a shipment whose
status is outside the three named ones raises `total` and its own
`statusCounts` entry but no other `totals` field. -/
theorem C8_stats_totals (cutoff : Nat) (dayOf : Nat → String) (db : DB) :
    (computeStats cutoff dayOf db).totals.total = (listShipments none none db).length ∧
    (computeStats cutoff dayOf db).totals.delivered =
      db.shipments.countP (fun s => s.status == "Delivered") ∧
    (computeStats cutoff dayOf db).totals.in_transit =
      db.shipments.countP (fun s => s.status == "In Transit") ∧
    (computeStats cutoff dayOf db).totals.pending =
      db.shipments.countP (fun s => s.status == "Pending") ∧
    (∀ st : String, lookupCount st (computeStats cutoff dayOf db).statusCounts =
      db.shipments.countP (fun s => s.status == st)) ∧
    (∀ sh : Shipment, sh.status ≠ "Delivered" → sh.status ≠ "In Transit" →
      sh.status ≠ "Pending" →
      (computeStats cutoff dayOf { db with shipments := db.shipments ++ [sh] }).totals =
        { total := (computeStats cutoff dayOf db).totals.total + 1
          delivered := (computeStats cutoff dayOf db).totals.delivered
          in_transit := (computeStats cutoff dayOf db).totals.in_transit
          pending := (computeStats cutoff dayOf db).totals.pending } ∧
      lookupCount sh.status
          (computeStats cutoff dayOf { db with shipments := db.shipments ++ [sh] }).statusCounts =
        lookupCount sh.status (computeStats cutoff dayOf db).statusCounts + 1) := by
  refine ⟨?_, rfl, rfl, rfl, statusCounts_lookup cutoff dayOf db, ?_⟩
  · show db.shipments.length = _
    have heq : listShipments none none db = db.shipments.insertionSort createdDesc := rfl
    rw [heq, (List.perm_insertionSort createdDesc _).length_eq]
  · intro sh hd hi hp
    constructor
    · show Totals.mk _ _ _ _ = _
      simp [computeStats, List.countP_append, List.countP_cons, hd, hi, hp]
    · rw [statusCounts_lookup, statusCounts_lookup]
      simp [List.countP_append, List.countP_cons]

/-- A shipment whose status is outside the three named totals statuses. -/
def demoFailed : Shipment :=
  { id := 2, tracking_number := "TRK2", sender_name := "A", receiver_name := "B",
    origin := "X", destination := "Y", weight := none, category := "General",
    status := "Failed", created_at := 0, updated_at := 0 }

/-- Witness for C8: adding a `"Failed"` shipment raises `totals.total` and
the `"Failed"` entry of `statusCounts` but no other `totals` field. -/
theorem C8_witness :
    (computeStats 0 (fun _ => "d")
        { demoDB1 with shipments := demoDB1.shipments ++ [demoFailed] }).totals =
      { total := (computeStats 0 (fun _ => "d") demoDB1).totals.total + 1
        delivered := (computeStats 0 (fun _ => "d") demoDB1).totals.delivered
        in_transit := (computeStats 0 (fun _ => "d") demoDB1).totals.in_transit
        pending := (computeStats 0 (fun _ => "d") demoDB1).totals.pending } ∧
    lookupCount demoFailed.status
        (computeStats 0 (fun _ => "d")
          { demoDB1 with shipments := demoDB1.shipments ++ [demoFailed] }).statusCounts =
      lookupCount demoFailed.status
        (computeStats 0 (fun _ => "d") demoDB1).statusCounts + 1 :=
  (C8_stats_totals 0 (fun _ => "d") demoDB1).2.2.2.2.2 demoFailed
    (by decide) (by decide) (by decide)

/-- C9 counterexample: when the provider reports no tracking found — HTTP
meta code 200 with an empty trackings list, line 210 of the source — the
handler returns an empty event list with NO explanatory message, against the
claim that both failure cases carry one. -/
theorem C9_counterexample :
    (externalTrack "key" { metaCode := 200, metaMessage := "", trackings := some [] }).events
      = [] ∧
    (externalTrack "key" { metaCode := 200, metaMessage := "", trackings := some [] }).error
      = none := by
  constructor <;> rfl

/-- C9 (amended): the lookup returns an empty event list with the message
`"No tracking API key configured"` when no provider key is configured, an
empty list with the provider's message when the provider answers a non-200
meta code, and an empty list with no message when the provider reports no
tracking found (absent or empty trackings list). -/
theorem C9_external_empty_cases (apiKey : String) (resp : ProviderResponse) :
    (apiKey = "" →
      externalTrack apiKey resp =
        { events := [], error := some "No tracking API key configured",
          current_status := none, slug := none }) ∧
    (apiKey ≠ "" → resp.metaCode ≠ 200 →
      externalTrack apiKey resp =
        { events := [], error := some resp.metaMessage, current_status := none, slug := none }) ∧
    (apiKey ≠ "" → resp.metaCode = 200 →
      (resp.trackings = none ∨ resp.trackings = some []) →
      externalTrack apiKey resp =
        { events := [], error := none, current_status := none, slug := none }) := by
  refine ⟨?_, ?_, ?_⟩
  · intro h
    simp [externalTrack, h]
  · intro h1 h2
    simp [externalTrack, h1, h2]
  · intro h1 h2 h3
    rcases h3 with h3 | h3 <;> simp [externalTrack, h1, h2, h3]

/-- Witness for the amended C9 at one concrete input per case. -/
theorem C9_witness :
    externalTrack "" { metaCode := 200, metaMessage := "m", trackings := none } =
      { events := [], error := some "No tracking API key configured",
        current_status := none, slug := none } ∧
    externalTrack "k" { metaCode := 500, metaMessage := "oops", trackings := none } =
      { events := [], error := some "oops", current_status := none, slug := none } ∧
    externalTrack "k" { metaCode := 200, metaMessage := "", trackings := some [] } =
      { events := [], error := none, current_status := none, slug := none } :=
  ⟨(C9_external_empty_cases "" { metaCode := 200, metaMessage := "m", trackings := none }).1 rfl,
   (C9_external_empty_cases "k" { metaCode := 500, metaMessage := "oops", trackings := none }).2.1
     (by decide) (by decide),
   (C9_external_empty_cases "k" { metaCode := 200, metaMessage := "", trackings := some [] }).2.2
     (by decide) rfl (Or.inr rfl)⟩

end ShipmentApp
